import Mathlib

/-!
Shallow embedding of the RAG chatbot server (`src/server.js`) of the
taskly-web-app repository: the `/api/ai/chat` handler, the retrieval step
`retrieveUserData`, the prompt construction `buildRAGPrompt`, the history
write `saveConversation`, and the generation client `callGemini`.

Times are modelled as integer milliseconds since the epoch.  JS
`Date.toDateString()` equality (same local calendar day) is modelled by
comparing `dayOf` values, i.e. floor division by the number of
milliseconds in a day with a fixed timezone offset of zero; none of the
proved properties depends on the offset.  Locale-dependent rendering
(`toLocaleTimeString`, `toLocaleDateString`) is modelled by the
deterministic stand-ins `fmtTime` and `fmtDate`; the properties proved
never depend on their exact output.  Console logging is not modelled.
-/

namespace Taskly

/-- One task row of the `tasks` table, as consumed by the server. -/
structure Task where
  title : String
  priority : String
  datetime : Option Int
  completed : Bool
deriving DecidableEq

/-- One row of `user_profiles`; only `full_name` is consumed. -/
structure Profile where
  full_name : Option String
deriving DecidableEq

/-- One row of `user_statistics`; the two fields the prompt header uses. -/
structure Stats where
  current_streak_days : Int
  tasks_completed_total : Int
deriving DecidableEq

/-- One row of `activity_log`; only `description` is consumed. -/
structure Activity where
  description : String
deriving DecidableEq

/-- The per-request context object returned by `retrieveUserData`:
`profile || \x7b\x7d` and `stats || \x7b\x7d` are modelled as `Option`
(`none` plays the role of the empty object), `tasks || []` and
`activity || []` as lists defaulting to `[]`. -/
structure Ctx where
  profile : Option Profile
  tasks : List Task
  stats : Option Stats
  activity : List Activity
deriving DecidableEq

/-- Metadata of one Supabase read call: table, order column, direction,
row limit — transcribing the `.from(...).select(...).order(...).limit(...)`
chains of `retrieveUserData`. -/
structure ReadOp where
  table : String
  orderColumn : Option String
  descending : Bool
  rowLimit : Option Nat
deriving DecidableEq

/-- The `user_profiles` read: `.eq(user_id).single()`. -/
def profileOp : ReadOp := ⟨"user_profiles", none, false, none⟩

/-- The `tasks` read: ordered by `datetime` ascending. -/
def tasksOp : ReadOp := ⟨"tasks", some "datetime", false, none⟩

/-- The `user_statistics` read: `.eq(user_id).single()`. -/
def statsOp : ReadOp := ⟨"user_statistics", none, false, none⟩

/-- The `activity_log` read: ordered by `created_at` descending, limit 5. -/
def activityOp : ReadOp := ⟨"activity_log", some "created_at", true, some 5⟩

/-- Observable effects of one chat turn, in program order: a record-store
read, a generation-backend call, a `conversation_history` insert, and the
HTTP response. -/
inductive Effect where
  | read (op : ReadOp)
  | genCall (model : String) (prompt : String)
  | insertHistory (userId : String) (message : String) (response : String)
  | respond (body : String)
deriving DecidableEq

/-- Outcome of one generation-backend call, as distinguished by
`callGemini`: a non-ok HTTP response carrying `errorText`, a thrown
transport error, or an ok response whose extracted text may be empty
(`data.candidates?.[0]?.content?.parts?.[0]?.text`, with a missing field
modelled as the empty string, which is equally falsy in JS). -/
inductive Outcome where
  | httpErr (msg : String)
  | exn (msg : String)
  | ok (text : String)
deriving DecidableEq

/-- Result of awaiting one Supabase read: the promise either rejected
(`threw`) or resolved with `data` being a row/rows or null (`ret none`
models a null `data` field, e.g. no row found). -/
inductive ReadRes (α : Type) where
  | threw (e : String)
  | ret (d : Option α)

/-- The external world as one chat request observes it: the outcome of
each of the four store reads, presence of `GEMINI_API_KEY`, the backend
behaviour per (model, prompt), the outcome of the history insert, and the
wall-clock time `new Date()` takes at prompt-build entry. -/
structure Env where
  profileRes : ReadRes Profile
  tasksRes : ReadRes (List Task)
  statsRes : ReadRes Stats
  activityRes : ReadRes (List Activity)
  hasKey : Bool
  backend : String → String → Outcome
  insertRes : Except String Unit
  now : Int

/-- JS truthiness of a destructured request-body string field: `undefined`
(absent) and the empty string are falsy. -/
def jsTruthy : Option String → Bool
  | some s => !(s == "")
  | none => false

/-- JS template-literal interpolation of a possibly-absent string:
`undefined` renders as the text "undefined". -/
def jsStr (o : Option String) : String := o.getD "undefined"

/-- Milliseconds in a day. -/
def msPerDay : Int := 86400000

/-- Calendar day of a timestamp; models `Date.toDateString()` equality
under a fixed timezone offset of zero. -/
def dayOf (t : Int) : Int := Int.fdiv t msPerDay

/-- Stand-in for `toLocaleTimeString`: deterministic rendering of the
time-of-day of a timestamp. -/
def fmtTime (t : Int) : String := toString (Int.emod t msPerDay)

/-- Stand-in for `toLocaleDateString`: deterministic rendering of the
calendar date of a timestamp. -/
def fmtDate (t : Int) : String := toString (dayOf t)

/-- `tasks.filter(t => t.datetime && new Date(t.datetime).toDateString()
=== today && !t.completed)`. -/
def todayTasks (now : Int) (tasks : List Task) : List Task :=
  tasks.filter fun t =>
    match t.datetime with
    | some d => (dayOf d == dayOf now) && !t.completed
    | none => false

/-- `tasks.filter(t => t.datetime && new Date(t.datetime) < now &&
!t.completed)`. -/
def overdueTasks (now : Int) (tasks : List Task) : List Task :=
  tasks.filter fun t =>
    match t.datetime with
    | some d => decide (d < now) && !t.completed
    | none => false

/-- `tasks.filter(t => t.datetime && new Date(t.datetime) > now &&
!t.completed).slice(0, 5)`. -/
def upcomingTasks (now : Int) (tasks : List Task) : List Task :=
  (tasks.filter fun t =>
    match t.datetime with
    | some d => decide (now < d) && !t.completed
    | none => false).take 5

/-- `tasks.filter(t => t.completed)`. -/
def completedTasks (tasks : List Task) : List Task :=
  tasks.filter fun t => t.completed

/-- `tasks.filter(t => !t.completed)`. -/
def incompleteTasks (tasks : List Task) : List Task :=
  tasks.filter fun t => !t.completed

/-- `incompleteTasks.filter(t => t.priority === 'High' || t.priority ===
'Urgent')`. -/
def highPriorityTasks (tasks : List Task) : List Task :=
  (incompleteTasks tasks).filter fun t =>
    (t.priority == "High") || (t.priority == "Urgent")

/-- `profile?.full_name || 'User'`. -/
def userNameOf (profile : Option Profile) : String :=
  match profile with
  | some p =>
    match p.full_name with
    | some s => if s == "" then "User" else s
    | none => "User"
  | none => "User"

/-- `stats?.current_streak_days || 0`. -/
def streakOf (stats : Option Stats) : Int :=
  match stats with
  | some s => s.current_streak_days
  | none => 0

/-- `stats?.tasks_completed_total || 0`. -/
def allTimeOf (stats : Option Stats) : Int :=
  match stats with
  | some s => s.tasks_completed_total
  | none => 0

/-- The USER INFO header block of the RAG prompt. -/
def headerSection (ud : Ctx) : String :=
  "You are Taskly AI, a helpful task management assistant with access to the user\x27s real data.\n\nUSER INFO:\n- Name: "
    ++ userNameOf ud.profile
    ++ "\n- Total Tasks: " ++ toString ud.tasks.length
    ++ "\n- Completed: " ++ toString (completedTasks ud.tasks).length
    ++ "\n- Incomplete: " ++ toString (incompleteTasks ud.tasks).length
    ++ "\n- Current Streak: " ++ toString (streakOf ud.stats)
    ++ " days\n- All-Time Completed: " ++ toString (allTimeOf ud.stats)
    ++ "\n\n"

/-- One line of the TODAY block: number, quoted title, priority, time. -/
def renderTodayLine (i : Nat) (t : Task) : String :=
  let time :=
    match t.datetime with
    | some d => fmtTime d
    | none => "No time"
  toString (i + 1) ++ ". \"" ++ t.title ++ "\" - " ++ t.priority
    ++ " priority, " ++ time ++ "\n"

/-- The TODAY block body: heading with full count, one line per task. -/
def renderToday (ts : List Task) : String :=
  "TODAY\x27S TASKS (" ++ toString ts.length ++ "):\n"
    ++ String.join (ts.enum.map fun p => renderTodayLine p.1 p.2)
    ++ "\n"

/-- One line of the OVERDUE block; `days` is
`Math.floor((now - datetime) / (1000*60*60*24))`.  Every task reaching
this renderer passed the datetime-presence filter, so the `getD 0`
default is unreachable. -/
def renderOverdueLine (now : Int) (i : Nat) (t : Task) : String :=
  let days := Int.fdiv (now - t.datetime.getD 0) msPerDay
  toString (i + 1) ++ ". \"" ++ t.title ++ "\" - " ++ toString days
    ++ " days overdue, " ++ t.priority ++ "\n"

/-- The OVERDUE block body: heading counts the whole list, lines render
only `slice(0, 3)`. -/
def renderOverdue (now : Int) (ts : List Task) : String :=
  "⚠️ OVERDUE TASKS (" ++ toString ts.length ++ "):\n"
    ++ String.join ((ts.take 3).enum.map fun p => renderOverdueLine now p.1 p.2)
    ++ "\n"

/-- The HIGH PRIORITY block body: heading counts the whole list, lines
render only `slice(0, 3)`. -/
def renderHighPriority (ts : List Task) : String :=
  "🔴 HIGH PRIORITY (" ++ toString ts.length ++ "):\n"
    ++ String.join ((ts.take 3).enum.map fun p =>
        toString (p.1 + 1) ++ ". \"" ++ p.2.title ++ "\" - " ++ p.2.priority ++ "\n")
    ++ "\n"

/-- The UPCOMING block body; the list was already truncated to 5.  As in
`renderOverdueLine`, the `getD 0` default is unreachable. -/
def renderUpcoming (ts : List Task) : String :=
  "📅 UPCOMING (" ++ toString ts.length ++ "):\n"
    ++ String.join (ts.enum.map fun p =>
        toString (p.1 + 1) ++ ". \"" ++ p.2.title ++ "\" - "
          ++ fmtDate (p.2.datetime.getD 0) ++ ", " ++ p.2.priority ++ "\n")
    ++ "\n"

/-- The RECENT ACTIVITY block body: one numbered description per entry,
in retrieved order. -/
def renderActivity (as : List Activity) : String :=
  "RECENT ACTIVITY:\n"
    ++ String.join (as.enum.map fun p =>
        toString (p.1 + 1) ++ ". " ++ p.2.description ++ "\n")
    ++ "\n"

/-- The USER MESSAGE / INSTRUCTIONS / RESPONSE footer of the RAG prompt. -/
def footerSection (userMessage : String) : String :=
  "USER MESSAGE: \"" ++ userMessage
    ++ "\"\n\nINSTRUCTIONS:\n- Answer based on their ACTUAL data shown above\n- Be conversational, friendly, and helpful\n- Reference specific tasks when relevant\n- Keep responses concise (2-4 sentences unless more detail needed)\n- Use natural language\n\nRESPONSE:"

/-- `buildRAGPrompt(userMessage, userData)`: computes the task buckets,
then appends each block to the accumulating prompt exactly when its list
is non-empty, in source order: header, today, overdue, high priority,
upcoming, recent activity, footer.  The wall-clock time the source takes
at entry is the explicit parameter `now`. -/
def buildRAGPrompt (now : Int) (userMessage : String) (ud : Ctx) : String :=
  let todayT := todayTasks now ud.tasks
  let overdueT := overdueTasks now ud.tasks
  let upcomingT := upcomingTasks now ud.tasks
  let hpT := highPriorityTasks ud.tasks
  let p := headerSection ud
  let p := if todayT.length > 0 then p ++ renderToday todayT else p
  let p := if overdueT.length > 0 then p ++ renderOverdue now overdueT else p
  let p := if hpT.length > 0 then p ++ renderHighPriority hpT else p
  let p := if upcomingT.length > 0 then p ++ renderUpcoming upcomingT else p
  let p := if ud.activity.length > 0 then p ++ renderActivity ud.activity else p
  p ++ footerSection userMessage

/-- The today-tasks block as it occurs inside the full prompt: present
exactly when the today bucket is non-empty. -/
def todaySection (now : Int) (ud : Ctx) : String :=
  if (todayTasks now ud.tasks).length > 0 then renderToday (todayTasks now ud.tasks) else ""

/-- The overdue block as it occurs inside the full prompt. -/
def overdueSection (now : Int) (ud : Ctx) : String :=
  if (overdueTasks now ud.tasks).length > 0 then renderOverdue now (overdueTasks now ud.tasks) else ""

/-- The high-priority block as it occurs inside the full prompt. -/
def highPrioritySection (ud : Ctx) : String :=
  if (highPriorityTasks ud.tasks).length > 0 then renderHighPriority (highPriorityTasks ud.tasks) else ""

/-- The upcoming block as it occurs inside the full prompt. -/
def upcomingSection (now : Int) (ud : Ctx) : String :=
  if (upcomingTasks now ud.tasks).length > 0 then renderUpcoming (upcomingTasks now ud.tasks) else ""

/-- The recent-activity block as it occurs inside the full prompt. -/
def activitySection (ud : Ctx) : String :=
  if ud.activity.length > 0 then renderActivity ud.activity else ""

/-- `retrieveUserData(userId)`: the four sequential awaited reads, in
source order, each returning `\x7bdata, error\x7d`; a null `data` is
replaced by its default (`|| \x7b\x7d` / `|| []`).  A rejected read
propagates (the source has no try/catch here), and the remaining reads
are not issued. -/
def retrieveUserData (env : Env) : List Effect × Except String Ctx :=
  match env.profileRes with
  | .threw e => ([.read profileOp], .error e)
  | .ret profile =>
    match env.tasksRes with
    | .threw e => ([.read profileOp, .read tasksOp], .error e)
    | .ret tasks =>
      match env.statsRes with
      | .threw e => ([.read profileOp, .read tasksOp, .read statsOp], .error e)
      | .ret stats =>
        match env.activityRes with
        | .threw e =>
          ([.read profileOp, .read tasksOp, .read statsOp, .read activityOp], .error e)
        | .ret activity =>
          ([.read profileOp, .read tasksOp, .read statsOp, .read activityOp],
           .ok ⟨profile, tasks.getD [], stats, activity.getD []⟩)

/-- The fixed model candidate list of `callGemini`:
`[\x7b name: 'gemini-2.5-flash', version: 'v1beta' \x7d]`. -/
def models : List (String × String) := [("gemini-2.5-flash", "v1beta")]

/-- The `for (const model of models)` loop of `callGemini`: one backend
call per candidate; a non-ok response or a thrown error is recorded in
`lastError` and the loop advances; an ok response with falsy text
advances without touching `lastError`; an ok response with non-empty text
returns immediately.  When the list is exhausted the loop throws
`All models failed. Last error: ` followed by `lastError?.message`
(`undefined` when no error was recorded). -/
def geminiLoop (backend : String → Outcome) (prompt : String) :
    List String → Option String → List Effect × Except String String
  | [], lastError =>
    ([], .error ("All models failed. Last error: " ++ lastError.getD "undefined"))
  | name :: rest, lastError =>
    match backend name with
    | .httpErr e =>
      let r := geminiLoop backend prompt rest (some e)
      (.genCall name prompt :: r.1, r.2)
    | .exn e =>
      let r := geminiLoop backend prompt rest (some e)
      (.genCall name prompt :: r.1, r.2)
    | .ok t =>
      if t == "" then
        let r := geminiLoop backend prompt rest lastError
        (.genCall name prompt :: r.1, r.2)
      else ([.genCall name prompt], .ok t)

/-- `callGemini(userMessage)`: throws at once when `GEMINI_API_KEY` is
absent, otherwise runs the candidate loop over the fixed model list with
`lastError` starting null. -/
def callGemini (env : Env) (prompt : String) : List Effect × Except String String :=
  if env.hasKey then
    geminiLoop (fun m => env.backend m prompt) prompt (models.map Prod.fst) none
  else ([], .error "GEMINI_API_KEY not found")

/-- `saveConversation(userId, message, response)`: one awaited insert into
`conversation_history` wrapped in try/catch — a rejected insert is caught
and only logged, so the function itself never throws. -/
def saveConversation (env : Env) (u m r : String) : List Effect × Except String Unit :=
  let attempt : List Effect × Except String Unit :=
    ([.insertHistory u m r], env.insertRes)
  match attempt.2 with
  | .ok _ => (attempt.1, .ok ())
  | .error _ => (attempt.1, .ok ())

/-- The fixed user-safe fallback body of the catch branch of the handler. -/
def fallbackResponse : String :=
  "I\x27m having trouble right now. Please try again in a moment."

/-- The generic prompt used when no userId is present. -/
def simplePrompt (m : String) : String :=
  "You are a helpful AI assistant. Keep responses concise.\n\nUser: " ++ m
    ++ "\n\nAssistant:"

/-- The `/api/ai/chat` handler: destructures `message` and `userId` from
the body with no validation; with a truthy userId it awaits
`retrieveUserData` and builds the RAG prompt, otherwise it uses the
generic prompt; it awaits `callGemini`, then (truthy userId only) awaits
`saveConversation`, then responds with the generated text.  Any error
thrown inside the try block is caught and answered with the fixed
fallback body.  The returned pair is the ordered effect trace and the
body of the JSON response. -/
def handleChat (env : Env) (message userId : Option String) : List Effect × String :=
  let msg := jsStr message
  let step1 : List Effect × Except String String :=
    if jsTruthy userId then
      match retrieveUserData env with
      | (es, .error e) => (es, .error e)
      | (es, .ok ud) => (es, .ok (buildRAGPrompt env.now msg ud))
    else ([], .ok (simplePrompt msg))
  match step1 with
  | (es, .error _) => (es ++ [.respond fallbackResponse], fallbackResponse)
  | (es, .ok prompt) =>
    match callGemini env prompt with
    | (ges, .error _) => (es ++ ges ++ [.respond fallbackResponse], fallbackResponse)
    | (ges, .ok text) =>
      if jsTruthy userId then
        match saveConversation env (jsStr userId) msg text with
        | (ses, .ok _) => (es ++ ges ++ ses ++ [.respond text], text)
        | (ses, .error _) => (es ++ ges ++ ses ++ [.respond fallbackResponse], fallbackResponse)
      else (es ++ ges ++ [.respond text], text)

/-- Modelled from the spec: `completionRate` is absent from
`src/server.js` (the prompt header renders raw counts only); the spec
defines it as `round(100 × completed / total)` when `total > 0` and `0`
otherwise, with JS `Math.round` half-up rounding, here expressed over
naturals as `floor((200 × completed + total) / (2 × total))`. -/
def completionRate (completed total : Nat) : Nat :=
  if total = 0 then 0 else (200 * completed + total) / (2 * total)

/-- A backend that always answers with the text `Hello!`. -/
def okBackend : String → String → Outcome := fun _ _ => .ok "Hello!"

/-- A healthy environment: every read resolves with no row, the API key is
present, the backend answers, the history insert resolves. -/
def env₀ : Env := ⟨.ret none, .ret none, .ret none, .ret none, true, okBackend, .ok (), 0⟩

/-- An environment whose `user_profiles` read rejects with `boom`. -/
def env₁ : Env := ⟨.threw "boom", .ret none, .ret none, .ret none, true, okBackend, .ok (), 0⟩

/-- An environment whose backend returns an ok response with empty text. -/
def envE : Env := ⟨.ret none, .ret none, .ret none, .ret none, true, fun _ _ => .ok "", .ok (), 0⟩

/-- A two-candidate backend: `model-a` fails with a rate-limit error text,
`model-b` returns an ok response with empty text. -/
def bk₇ : String → Outcome :=
  fun m => if m == "model-a" then .httpErr "rate limited" else .ok ""

/-- A single-purpose backend answering `hi` for every candidate. -/
def bkW : String → Outcome := fun _ => .ok "hi"

/-- Recognises a record-store read effect. -/
def isRead : Effect → Bool
  | .read _ => true
  | _ => false

/-- Recognises a read of the `conversation_history` table. -/
def isHistoryRead : Effect → Bool
  | .read op => op.table == "conversation_history"
  | _ => false

/-- Recognises a generation-backend call effect. -/
def isGenCall : Effect → Bool
  | .genCall _ _ => true
  | _ => false

/-- Recognises the HTTP response effect. -/
def isRespond : Effect → Bool
  | .respond _ => true
  | _ => false

/-- True when a history insert occurs strictly before a response in the
trace, i.e. the response was held pending the write. -/
def insertPrecedesRespond : List Effect → Bool
  | [] => false
  | .insertHistory _ _ _ :: rest => rest.any isRespond
  | _ :: rest => insertPrecedesRespond rest

/-- The error text `callGemini` records in `lastError` for an outcome:
non-ok responses and thrown errors are recorded, ok responses (empty or
not) are not. -/
def recordOf : Outcome → Option String
  | .httpErr e => some e
  | .exn e => some e
  | .ok _ => none

/-- The value of `lastError` after the loop has consumed the given
candidates starting from `le`. -/
def lastRec (backend : String → Outcome) : List String → Option String → Option String
  | [], le => le
  | m :: rest, le =>
    lastRec backend rest
      (match recordOf (backend m) with
       | some e => some e
       | none => le)

/-- An outcome on which the loop returns: an ok response with non-empty
text. -/
def isSuccess : Outcome → Bool
  | .ok t => !(t == "")
  | _ => false

/-- Datetime order between two tasks, with a missing datetime comparing
as true; a task list sorted ascending by datetime is pairwise in this
relation. -/
def dtLeB (a b : Task) : Bool :=
  match a.datetime, b.datetime with
  | some da, some db => decide (da ≤ db)
  | _, _ => true

/-- A task due 500ms into day 10, not completed. -/
def taskEarlierToday : Task := ⟨"Pay rent", "High", some 864000500, false⟩

/-- A task due 50000000ms into day 10 (later than `nowMidDay`), not
completed. -/
def taskLaterToday : Task := ⟨"Gym", "Normal", some 864050000, false⟩

/-- An evaluation instant 1000ms into day 10. -/
def nowDay10 : Int := 864001000

/-- A retrieved context holding only the task due later today. -/
def udLater : Ctx := ⟨none, [taskLaterToday], none, []⟩

/-- A two-task list sorted ascending by datetime, both incomplete and in
the future relative to evaluation time 50. -/
def tasksSorted : List Task :=
  [⟨"a", "Low", some 100, false⟩, ⟨"b", "Low", some 200, false⟩]

/-- A string whose first chunk is non-empty is non-empty. -/
theorem append_ne_empty (s t : String) (h : s.data ≠ []) : s ++ t ≠ "" := by
  intro hc
  have hd := congrArg String.data hc
  rw [String.data_append] at hd
  exact h (List.append_eq_nil.mp hd).1

/-- Membership in the upcoming bucket forces an incomplete task with a
strictly future datetime. -/
theorem mem_upcoming (now : Int) (tasks : List Task) (t : Task)
    (ht : t ∈ upcomingTasks now tasks) :
    ∃ d, t.datetime = some d ∧ now < d ∧ t.completed = false := by
  have hf := List.mem_filter.mp (List.mem_of_mem_take ht)
  cases hdt : t.datetime with
  | none => rw [hdt] at hf; simp at hf
  | some d =>
    rw [hdt] at hf
    simp only [Bool.and_eq_true, decide_eq_true_eq, Bool.not_eq_true'] at hf
    exact ⟨d, rfl, hf.2.1, hf.2.2⟩

/-- Membership in the overdue bucket forces an incomplete task with a
datetime strictly before now. -/
theorem mem_overdue (now : Int) (tasks : List Task) (t : Task)
    (ht : t ∈ overdueTasks now tasks) :
    ∃ d, t.datetime = some d ∧ d < now ∧ t.completed = false := by
  have hf := List.mem_filter.mp ht
  cases hdt : t.datetime with
  | none => rw [hdt] at hf; simp at hf
  | some d =>
    rw [hdt] at hf
    simp only [Bool.and_eq_true, decide_eq_true_eq, Bool.not_eq_true'] at hf
    exact ⟨d, rfl, hf.2.1, hf.2.2⟩

/-- C2: false as stated — the buckets are computed by independent filters
with no mutual exclusion, and a task due earlier on the current calendar
day satisfies both the overdue test (datetime < now) and the today test
(same calendar day): at evaluation time 1000ms into day 10, the
incomplete task due 500ms into day 10 is a member of both the overdue
bucket and the today bucket. -/
theorem overdue_today_not_exclusive :
    taskEarlierToday ∈ overdueTasks nowDay10 [taskEarlierToday]
    ∧ taskEarlierToday ∈ todayTasks nowDay10 [taskEarlierToday] := by
  decide

/-- C2 (amended): the overdue and upcoming buckets are mutually
exclusive (their tests demand datetime < now and now < datetime), but the
today bucket may overlap either; no three-way exclusivity holds. -/
theorem overdue_upcoming_exclusive (now : Int) (tasks : List Task) :
    (overdueTasks now tasks).all
      (fun t => !((upcomingTasks now tasks).contains t)) = true := by
  rw [List.all_eq_true]
  intro t ht
  cases hc : (upcomingTasks now tasks).contains t with
  | false => rfl
  | true =>
    exfalso
    have hmemU : t ∈ upcomingTasks now tasks := List.elem_iff.mp hc
    obtain ⟨d, hd, hlt, _⟩ := mem_overdue now tasks t ht
    obtain ⟨d', hd', hgt, _⟩ := mem_upcoming now tasks t hmemU
    rw [hd] at hd'
    cases hd'
    omega

/-- C8: the completion rate is `round(100 × completed / total)` for a
positive total and 0 for an empty task list; over any retrieved task list
it is an integer between 0 and 100, and 3 completed out of 4 gives 75. -/
theorem completionRate_bounds (tasks : List Task) (c : Nat) :
    completionRate (completedTasks tasks).length tasks.length ≤ 100
    ∧ completionRate c 0 = 0
    ∧ completionRate 3 4 = 75 := by
  refine ⟨?_, rfl, by decide⟩
  by_cases hn : tasks.length = 0
  · simp [completionRate, hn]
  · have hk : (completedTasks tasks).length ≤ tasks.length :=
      List.length_filter_le _ tasks
    have h2n : 0 < 2 * tasks.length := by omega
    have hlt : (200 * (completedTasks tasks).length + tasks.length) / (2 * tasks.length) < 101 :=
      (Nat.div_lt_iff_lt_mul h2n).mpr (by omega)
    simp only [completionRate, if_neg hn]
    omega

/-- C9: over any task list sorted ascending by datetime (the order the
tasks read requests), the upcoming bucket holds only incomplete tasks
with a strictly future datetime, has at most 5 entries, and stays sorted
ascending by datetime. -/
theorem upcoming_shape (now : Int) (tasks : List Task)
    (hs : List.Pairwise (fun a b => dtLeB a b = true) tasks) :
    (∀ t ∈ upcomingTasks now tasks,
      ∃ d, t.datetime = some d ∧ now < d ∧ t.completed = false)
    ∧ (upcomingTasks now tasks).length ≤ 5
    ∧ List.Pairwise (fun a b => dtLeB a b = true) (upcomingTasks now tasks) := by
  refine ⟨fun t ht => mem_upcoming now tasks t ht, ?_, ?_⟩
  · simp [upcomingTasks, List.length_take]
  · exact hs.sublist (List.Sublist.trans (List.take_sublist _ _) (List.filter_sublist _))

/-- C9 witness: the theorem applied to a concrete sorted two-task list at
evaluation time 50. -/
theorem upcoming_shape_witness :
    (upcomingTasks 50 tasksSorted).length ≤ 5 :=
  (upcoming_shape 50 tasksSorted (by decide)).2.1

/-- C4: false as stated — `retrieveUserData` has no try/catch, so a
rejected read is not swallowed: with the `user_profiles` read rejecting
with `boom`, retrieval propagates the error instead of returning the
all-defaults context, the handler answers the fixed fallback body, and no
generation-backend call is made — the chat turn is aborted. -/
theorem retrieval_throw_aborts_turn :
    (retrieveUserData env₁).2 = Except.error "boom"
    ∧ (handleChat env₁ (some "hi") (some "u1")).2 = fallbackResponse
    ∧ (handleChat env₁ (some "hi") (some "u1")).1.any isGenCall = false :=
  ⟨rfl, rfl, rfl⟩

/-- C4 (amended): any individual read that resolves with no row is
replaced by its default (absent profile, empty task and activity lists,
zeroed statistics), but a read whose promise rejects propagates out of
the retriever to the handler's catch, which answers the fixed fallback
body without reaching the generation backend. -/
theorem retrieval_defaults_and_throw (op : Option Profile)
    (ot : Option (List Task)) (os : Option Stats) (oa : Option (List Activity))
    (hk : Bool) (bk : String → String → Outcome) (ir : Except String Unit)
    (now : Int) :
    retrieveUserData ⟨.ret op, .ret ot, .ret os, .ret oa, hk, bk, ir, now⟩ =
      ([.read profileOp, .read tasksOp, .read statsOp, .read activityOp],
        .ok ⟨op, ot.getD [], os, oa.getD []⟩)
    ∧ ∀ (e : String) (tr : ReadRes (List Task)) (sr : ReadRes Stats)
        (ar : ReadRes (List Activity)) (m : Option String) (u : String),
        jsTruthy (some u) = true →
        handleChat ⟨.threw e, tr, sr, ar, hk, bk, ir, now⟩ m (some u) =
          ([.read profileOp, .respond fallbackResponse], fallbackResponse) := by
  refine ⟨rfl, ?_⟩
  intro e tr sr ar m u hu
  simp [handleChat, retrieveUserData, hu]

/-- C4 witness: the amended theorem applied to the concrete environment
whose profile read rejects with `boom`. -/
theorem retrieval_defaults_and_throw_witness :
    handleChat env₁ (some "x") (some "u1") =
      ([.read profileOp, .respond fallbackResponse], fallbackResponse) :=
  (retrieval_defaults_and_throw none none none none true okBackend
    (.ok ()) 0).2 "boom" (.ret none) (.ret none) (.ret none) (some "x") "u1" rfl

/-- C5: false as stated — a complete successful chat turn issues
record-store reads, but none of them touches `conversation_history`; the
server never retrieves conversation history at all. -/
theorem no_history_retrieval :
    (handleChat env₀ (some "hi") (some "u1")).1.any isRead = true
    ∧ (handleChat env₀ (some "hi") (some "u1")).1.any isHistoryRead = false :=
  ⟨rfl, rfl⟩

/-- C5 (amended): a chat turn's retrieval reads exactly `user_profiles`,
`tasks` (ordered by datetime ascending), `user_statistics`, and
`activity_log` (ordered by created_at descending, limited to 5 rows); no
read of `conversation_history` ever occurs — conversation turns are only
written. -/
theorem retrieval_reads_exact (op : Option Profile) (ot : Option (List Task))
    (os : Option Stats) (oa : Option (List Activity)) (hk : Bool)
    (bk : String → String → Outcome) (ir : Except String Unit) (now : Int) :
    (retrieveUserData ⟨.ret op, .ret ot, .ret os, .ret oa, hk, bk, ir, now⟩).1 =
      [.read profileOp, .read tasksOp, .read statsOp, .read activityOp]
    ∧ (∀ env : Env, (retrieveUserData env).1.any isHistoryRead = false)
    ∧ activityOp = ⟨"activity_log", some "created_at", true, some 5⟩
    ∧ tasksOp = ⟨"tasks", some "datetime", false, none⟩ := by
  refine ⟨rfl, ?_, rfl, rfl⟩
  intro env
  rcases env with ⟨pr, tr, sr, ar, hk', bk', ir', now'⟩
  cases pr <;> cases tr <;> cases sr <;> cases ar <;> rfl

/-- C6: false as stated — the history write is awaited, not
fire-and-forget: in the effect trace of a successful personalized turn
the `conversation_history` insert occurs strictly before the HTTP
response, i.e. the response is held pending the write. -/
theorem history_write_awaited :
    insertPrecedesRespond (handleChat env₀ (some "hi") (some "u1")).1 = true :=
  rfl

/-- C6 (amended): the history write is awaited before responding, but its
failure is caught inside `saveConversation` and only logged: a turn whose
insert rejects produces exactly the same effect trace and the same
successful response body as one whose insert resolves. -/
theorem insert_failure_invisible (pr : ReadRes Profile)
    (tr : ReadRes (List Task)) (sr : ReadRes Stats)
    (ar : ReadRes (List Activity)) (hk : Bool)
    (bk : String → String → Outcome) (now : Int) (e : String)
    (m u : Option String) :
    handleChat ⟨pr, tr, sr, ar, hk, bk, .error e, now⟩ m u =
      handleChat ⟨pr, tr, sr, ar, hk, bk, .ok (), now⟩ m u := by
  rfl

/-- C10: a chat request carrying a message but no userId is still served:
the handler performs no record-store read and no history write, builds
the fixed generic prompt followed by the user message, calls the
generation backend on exactly that prompt, and responds with the
generated text. -/
theorem generic_turn (env : Env) (msg t : String)
    (hk : env.hasKey = true)
    (hb : env.backend "gemini-2.5-flash" (simplePrompt msg) = .ok t)
    (ht : ¬ t = "") :
    handleChat env (some msg) none =
      ([.genCall "gemini-2.5-flash" (simplePrompt msg), .respond t], t)
    ∧ simplePrompt msg =
        "You are a helpful AI assistant. Keep responses concise.\n\nUser: "
          ++ msg ++ "\n\nAssistant:" := by
  refine ⟨?_, rfl⟩
  have ht' : (t == "") = false := by simpa using ht
  simp [handleChat, jsTruthy, jsStr, callGemini, models, geminiLoop, hk, hb, ht']

/-- C10 witness: the theorem applied to the healthy environment and the
message `hi`. -/
theorem generic_turn_witness :
    handleChat env₀ (some "hi") none =
      ([.genCall "gemini-2.5-flash" (simplePrompt "hi"), .respond "Hello!"],
        "Hello!") :=
  (generic_turn env₀ "hi" "Hello!" rfl rfl (by decide)).1

/-- C1: false as stated — the handler performs no input validation: a
request with a message but no userId is not rejected; it reaches the
generation backend (a `genCall` effect occurs in its trace). -/
theorem missing_userId_not_rejected :
    ¬ (∀ (env : Env) (message userId : Option String),
        message = none ∨ userId = none →
        ∀ m p, Effect.genCall m p ∉ (handleChat env message userId).1) := by
  intro h
  exact h env₀ (some "hi") none (Or.inr rfl) "gemini-2.5-flash"
    (simplePrompt "hi") (by decide)

/-- C1 (amended): a request without a userId is served rather than
rejected: no record-store read and no history write occur, but (with the
API key present) the generation backend is called. -/
theorem no_userId_no_validation (env : Env) (msg : Option String)
    (hk : env.hasKey = true) :
    (∀ op, Effect.read op ∉ (handleChat env msg none).1)
    ∧ (∀ u m r, Effect.insertHistory u m r ∉ (handleChat env msg none).1)
    ∧ (∃ p, Effect.genCall "gemini-2.5-flash" p ∈ (handleChat env msg none).1) := by
  obtain ⟨b, hb⟩ : ∃ b, (handleChat env msg none).1 =
      [Effect.genCall "gemini-2.5-flash" (simplePrompt (jsStr msg)),
        Effect.respond b] := by
    rcases hbk : env.backend "gemini-2.5-flash" (simplePrompt (jsStr msg))
      with e | e | t
    · exact ⟨fallbackResponse,
        by simp [handleChat, jsTruthy, callGemini, hk, models, geminiLoop, hbk]⟩
    · exact ⟨fallbackResponse,
        by simp [handleChat, jsTruthy, callGemini, hk, models, geminiLoop, hbk]⟩
    · by_cases ht : (t == "") = true
      · exact ⟨fallbackResponse,
          by simp [handleChat, jsTruthy, callGemini, hk, models, geminiLoop, hbk, ht]⟩
      · exact ⟨t,
          by simp [handleChat, jsTruthy, callGemini, hk, models, geminiLoop, hbk,
            Bool.of_not_eq_true ht]⟩
  refine ⟨?_, ?_, ⟨simplePrompt (jsStr msg), ?_⟩⟩
  · intro op
    rw [hb]
    simp
  · intro u m r
    rw [hb]
    simp
  · rw [hb]
    simp

/-- C1 witness: the amended theorem applied to the healthy environment. -/
theorem no_userId_no_validation_witness :
    Effect.read profileOp ∉ (handleChat env₀ (some "hi") none).1 :=
  (no_userId_no_validation env₀ (some "hi") rfl).1 profileOp

/-- C7: false as stated — an ok backend response with empty text counts
as a failed candidate but is not recorded in `lastError`: with candidates
model-a (rate-limit failure) then model-b (ok but empty), every candidate
fails yet the raised message references model-a's error, not the last
observed failure; with the real single-candidate list failing on empty
text, the message references no observed failure at all (`undefined`). -/
theorem last_error_not_last_failure :
    bk₇ "model-b" = .ok ""
    ∧ (geminiLoop bk₇ "p" ["model-a", "model-b"] none).2 =
        .error "All models failed. Last error: rate limited"
    ∧ (callGemini envE "p").2 =
        .error "All models failed. Last error: undefined" :=
  ⟨rfl, rfl, rfl⟩

/-- C7 (amended): the loop tries the candidates in order and returns the
first non-empty generated text immediately, trying nothing further; when
every candidate fails it raises a single failure whose message references
the last recorded error, where only non-ok responses and thrown errors
are recorded — an empty-text response advances without recording, so the
message may reference an earlier candidate's error or the placeholder
`undefined`. -/
theorem geminiLoop_contract (backend : String → Outcome) (prompt : String) :
    (∀ (ms : List String) (le : Option String),
      (∀ m ∈ ms, isSuccess (backend m) = false) →
      geminiLoop backend prompt ms le =
        (ms.map (fun m => Effect.genCall m prompt),
         .error ("All models failed. Last error: "
           ++ (lastRec backend ms le).getD "undefined")))
    ∧ (∀ (pre : List String) (name : String) (post : List String)
        (le : Option String) (t : String),
        (∀ m ∈ pre, isSuccess (backend m) = false) →
        backend name = .ok t → ¬ t = "" →
        geminiLoop backend prompt (pre ++ name :: post) le =
          (pre.map (fun m => Effect.genCall m prompt)
            ++ [Effect.genCall name prompt], .ok t)) := by
  constructor
  · intro ms
    induction ms with
    | nil => intro le _; simp [geminiLoop, lastRec]
    | cons m rest ih =>
      intro le h
      have hm : isSuccess (backend m) = false := h m (List.mem_cons_self m rest)
      have hrest : ∀ x ∈ rest, isSuccess (backend x) = false :=
        fun x hx => h x (List.mem_cons_of_mem m hx)
      rcases hbk : backend m with e | e | t
      · simp [geminiLoop, hbk, lastRec, recordOf, ih (some e) hrest]
      · simp [geminiLoop, hbk, lastRec, recordOf, ih (some e) hrest]
      · have ht : (t == "") = true := by
          rw [hbk] at hm
          simpa [isSuccess] using hm
        simp [geminiLoop, hbk, ht, lastRec, recordOf, ih le hrest]
  · intro pre
    induction pre with
    | nil =>
      intro name post le t _ hb ht
      have ht' : (t == "") = false := by simpa using ht
      simp [geminiLoop, hb, ht']
    | cons m rest ih =>
      intro name post le t h hb ht
      have hm : isSuccess (backend m) = false := h m (List.mem_cons_self m rest)
      have hrest : ∀ x ∈ rest, isSuccess (backend x) = false :=
        fun x hx => h x (List.mem_cons_of_mem m hx)
      rcases hbk : backend m with e | e | s
      · simp [geminiLoop, hbk, ih name post (some e) t hrest hb ht]
      · simp [geminiLoop, hbk, ih name post (some e) t hrest hb ht]
      · have hs : (s == "") = true := by
          rw [hbk] at hm
          simpa [isSuccess] using hm
        simp [geminiLoop, hbk, hs, ih name post le t hrest hb ht]

/-- C7 witness: the amended theorem applied to the two-candidate backend
(all candidates failing) and to a backend succeeding on its first
candidate. -/
theorem geminiLoop_contract_witness :
    geminiLoop bk₇ "p" ["model-a", "model-b"] none =
      ([Effect.genCall "model-a" "p", Effect.genCall "model-b" "p"],
        .error ("All models failed. Last error: "
          ++ (lastRec bk₇ ["model-a", "model-b"] none).getD "undefined"))
    ∧ geminiLoop bkW "p" ["m"] none = ([Effect.genCall "m" "p"], .ok "hi") :=
  ⟨(geminiLoop_contract bk₇ "p").1 ["model-a", "model-b"] none (by decide),
   (geminiLoop_contract bkW "p").2 [] "m" [] none "hi" (by simp) rfl (by decide)⟩

/-- A string of positive length is non-empty. -/
theorem ne_empty_of_length (s : String) (h : 0 < s.length) : s ≠ "" := by
  intro hc
  rw [hc] at h
  simp at h

/-- The rendered today block is never the empty string. -/
theorem renderToday_ne_empty (ts : List Task) : renderToday ts ≠ "" := by
  intro hc
  have hl := congrArg String.length hc
  simp [renderToday, String.length_append] at hl
  have h1 : 0 < ("TODAY\x27S TASKS (" : String).length := by decide
  omega

/-- The rendered overdue block is never the empty string. -/
theorem renderOverdue_ne_empty (now : Int) (ts : List Task) :
    renderOverdue now ts ≠ "" := by
  intro hc
  have hl := congrArg String.length hc
  simp [renderOverdue, String.length_append] at hl
  have h1 : 0 < ("⚠️ OVERDUE TASKS (" : String).length := by decide
  omega

/-- The rendered high-priority block is never the empty string. -/
theorem renderHighPriority_ne_empty (ts : List Task) :
    renderHighPriority ts ≠ "" := by
  intro hc
  have hl := congrArg String.length hc
  simp [renderHighPriority, String.length_append] at hl
  have h1 : 0 < ("🔴 HIGH PRIORITY (" : String).length := by decide
  omega

/-- The rendered upcoming block is never the empty string. -/
theorem renderUpcoming_ne_empty (ts : List Task) : renderUpcoming ts ≠ "" := by
  intro hc
  have hl := congrArg String.length hc
  simp [renderUpcoming, String.length_append] at hl
  have h1 : 0 < ("📅 UPCOMING (" : String).length := by decide
  omega

/-- The rendered activity block is never the empty string. -/
theorem renderActivity_ne_empty (as : List Activity) :
    renderActivity as ≠ "" := by
  intro hc
  have hl := congrArg String.length hc
  simp [renderActivity, String.length_append] at hl
  have h1 : 0 < ("RECENT ACTIVITY:\n" : String).length := by decide
  omega

/-- C3: false as stated — the today block and the upcoming block are
emitted by independent conditionals, not an either/or: with the single
incomplete task due later on the current day, the today bucket is
non-empty and yet the upcoming block of the rendered prompt is non-empty
too (the task due later today sits in both). -/
theorem today_upcoming_both_rendered :
    todayTasks nowDay10 udLater.tasks ≠ []
    ∧ todaySection nowDay10 udLater ≠ ""
    ∧ upcomingSection nowDay10 udLater ≠ "" := by
  decide

/-- C3 (amended): the prompt is exactly the header followed by the
today, overdue, high-priority, upcoming, and recent-activity blocks in
that fixed order and then the message/instruction footer; each block is
present exactly when its source list is non-empty, with today and
upcoming emitted independently (no mutual exclusion) and no
conversation-history block at all. -/
theorem buildRAGPrompt_structure (now : Int) (msg : String) (ud : Ctx) :
    buildRAGPrompt now msg ud =
      headerSection ud ++ todaySection now ud ++ overdueSection now ud
        ++ highPrioritySection ud ++ upcomingSection now ud
        ++ activitySection ud ++ footerSection msg
    ∧ (todaySection now ud = "" ↔ todayTasks now ud.tasks = [])
    ∧ (overdueSection now ud = "" ↔ overdueTasks now ud.tasks = [])
    ∧ (highPrioritySection ud = "" ↔ highPriorityTasks ud.tasks = [])
    ∧ (upcomingSection now ud = "" ↔ upcomingTasks now ud.tasks = [])
    ∧ (activitySection ud = "" ↔ ud.activity = []) := by
  refine ⟨?_, ?_, ?_, ?_, ?_, ?_⟩
  · simp only [buildRAGPrompt, todaySection, overdueSection,
      highPrioritySection, upcomingSection, activitySection]
    split_ifs <;>
      simp [String.append_assoc, String.append_empty, String.empty_append]
  · constructor
    · intro h
      by_contra hne
      have hlen : (todayTasks now ud.tasks).length > 0 :=
        List.length_pos.mpr hne
      rw [todaySection, if_pos hlen] at h
      exact renderToday_ne_empty _ h
    · intro h
      rw [todaySection, h]
      simp
  · constructor
    · intro h
      by_contra hne
      have hlen : (overdueTasks now ud.tasks).length > 0 :=
        List.length_pos.mpr hne
      rw [overdueSection, if_pos hlen] at h
      exact renderOverdue_ne_empty now _ h
    · intro h
      rw [overdueSection, h]
      simp
  · constructor
    · intro h
      by_contra hne
      have hlen : (highPriorityTasks ud.tasks).length > 0 :=
        List.length_pos.mpr hne
      rw [highPrioritySection, if_pos hlen] at h
      exact renderHighPriority_ne_empty _ h
    · intro h
      rw [highPrioritySection, h]
      simp
  · constructor
    · intro h
      by_contra hne
      have hlen : (upcomingTasks now ud.tasks).length > 0 :=
        List.length_pos.mpr hne
      rw [upcomingSection, if_pos hlen] at h
      exact renderUpcoming_ne_empty _ h
    · intro h
      rw [upcomingSection, h]
      simp
  · constructor
    · intro h
      by_contra hne
      have hlen : ud.activity.length > 0 := List.length_pos.mpr hne
      rw [activitySection, if_pos hlen] at h
      exact renderActivity_ne_empty _ h
    · intro h
      rw [activitySection, h]
      simp

/-- C3 witness: the structure theorem applied to the concrete context
holding one task due later today. -/
theorem buildRAGPrompt_structure_witness :
    buildRAGPrompt nowDay10 "hi" udLater =
      headerSection udLater ++ todaySection nowDay10 udLater
        ++ overdueSection nowDay10 udLater ++ highPrioritySection udLater
        ++ upcomingSection nowDay10 udLater ++ activitySection udLater
        ++ footerSection "hi" :=
  (buildRAGPrompt_structure nowDay10 "hi" udLater).1

end Taskly
